import Mathlib

/-!
Shallow embedding of `src/main.py` (FastAPI app "UMKM & Attendance API") and
proofs about its request handlers.

Conventions used throughout:
* Python `str.strip()` is modelled by `pyStrip` below: it drops the ASCII
  whitespace characters from both ends (further Unicode whitespace, which
  Python would also strip, is not modelled; no claim depends on it).
* Python string truthiness (`if s:`) is `s ≠ ""`; `None` is `Option.none`.
* A raised `HTTPException` is the `Except.error` branch of the handler's result.
* The document store is a list of records per collection; `database.py` is not
  part of the repository, so its two operations are modelled from the spec
  (section 4.1 Storage Adapter): `insert` appends a record and returns a fresh
  string identifier, `query` with the empty filter returns all stored documents
  (the latter appears as the handler's input list).
-/

set_option maxHeartbeats 1000000

deriving instance DecidableEq for Except

namespace MainPy

/-- The ASCII whitespace characters removed by Python `str.strip()`. -/
def isPySpace (c : Char) : Bool :=
  c == ' ' || c == '\t' || c == '\n' || c == '\r' || c == '\x0b' || c == '\x0c'

/-- Python `str.strip()`: remove leading and trailing whitespace. -/
def pyStrip (s : String) : String :=
  ⟨((s.data.dropWhile isPySpace).reverse.dropWhile isPySpace).reverse⟩

/-- An HTTP error raised via `HTTPException(status_code=..., detail=...)`. -/
structure HTTPErr where
  status_code : Nat
  detail : String
deriving DecidableEq, Repr

/-- Modelled from the spec: the `Attendance` record shape of the missing
`schemas.py` (spec section 2 "Domain Records", section 3): a `name` and an
ISO-8601 `timestamp`, both strings. -/
structure Attendance where
  name : String
  timestamp : String
deriving DecidableEq, Repr

/-- The JSON object returned by `POST /api/attendance`:
`{"id": inserted_id, "name": data.name, "timestamp": data.timestamp}`. -/
structure AttendanceResp where
  id : String
  name : String
  timestamp : String
deriving DecidableEq, Repr

/-- Modelled from the spec: `database.create_document` (spec section 4.1,
`insert(collectionName, record) -> identifier`): persists the record into the
collection and returns a newly generated identifier as a string.  The fresh
identifier is passed in as `freshId`; the function returns it together with the
updated collection state. -/
def create_document {α : Type} (freshId : String) (store : List α) (doc : α) :
    String × List α :=
  (freshId, store ++ [doc])

/-- Shallow embedding of `mark_attendance` (src/main.py lines 31-40), the handler
of `POST /api/attendance`.  `name` is the payload's `name` field — the pydantic
model `AttendanceIn` has no other field, so a client-supplied timestamp never
reaches the handler.  `now` stands for `datetime.now(timezone.utc).isoformat()`,
the server-clock UTC time in ISO-8601 form at the moment of processing.
`freshId` is the identifier generated by storage, `store` the current state of
the `attendance` collection.  The result pairs the HTTP outcome with the
post-state of the collection. -/
def mark_attendance (name now freshId : String) (store : List Attendance) :
    Except HTTPErr AttendanceResp × List Attendance :=
  if pyStrip name = "" then
    (Except.error ⟨400, "Name is required"⟩, store)
  else
    let data : Attendance := ⟨pyStrip name, now⟩
    let inserted := create_document freshId store data
    (Except.ok ⟨inserted.1, data.name, data.timestamp⟩, inserted.2)

/-- Claim C1: `mark_attendance` fails with HTTP 400 and detail "Name is required"
if and only if the submitted name is empty after trimming, and in that case the
`attendance` collection is left unchanged. -/
theorem mark_attendance_400_iff_blank (name now freshId : String)
    (store : List Attendance) :
    ((mark_attendance name now freshId store).1 =
        Except.error ⟨400, "Name is required"⟩ ↔ pyStrip name = "") ∧
    (pyStrip name = "" → (mark_attendance name now freshId store).2 = store) := by
  constructor
  · constructor
    · intro h
      by_contra hne
      simp [mark_attendance, hne] at h
    · intro h
      simp [mark_attendance, h]
  · intro h
    simp [mark_attendance, h]

/-- Witness for C1: the whitespace-only name `"   "` trims to empty, yields the
400 error and leaves the store unchanged. -/
theorem mark_attendance_400_iff_blank_witness :
    ((mark_attendance "   " "2024-01-01T00:00:00+00:00" "id1" []).1 =
        Except.error ⟨400, "Name is required"⟩) ∧
    (mark_attendance "   " "2024-01-01T00:00:00+00:00" "id1" []).2 = [] := by
  refine ⟨((mark_attendance_400_iff_blank "   " "2024-01-01T00:00:00+00:00" "id1" []).1).mpr (by decide),
    (mark_attendance_400_iff_blank "   " "2024-01-01T00:00:00+00:00" "id1" []).2 (by decide)⟩

/-- Claim C2: for a name that is non-empty after trimming, `mark_attendance`
appends exactly one record to the `attendance` collection, carrying the trimmed
name and the server-clock ISO-8601 timestamp `now`, and returns
`{id, name, timestamp}` with the inserted identifier, the trimmed name and that
timestamp. -/
theorem mark_attendance_success (name now freshId : String)
    (store : List Attendance) (h : pyStrip name ≠ "") :
    (mark_attendance name now freshId store).1 =
      Except.ok ⟨freshId, pyStrip name, now⟩ ∧
    (mark_attendance name now freshId store).2 =
      store ++ [⟨pyStrip name, now⟩] := by
  simp [mark_attendance, h, create_document]

/-- Witness for C2: submitting `"  Alice  "` persists and returns the trimmed
name `"Alice"` with the server timestamp. -/
theorem mark_attendance_success_witness :
    (mark_attendance "  Alice  " "2024-01-01T00:00:00+00:00" "id1" []).1 =
      Except.ok ⟨"id1", "Alice", "2024-01-01T00:00:00+00:00"⟩ ∧
    (mark_attendance "  Alice  " "2024-01-01T00:00:00+00:00" "id1" []).2 =
      [⟨"Alice", "2024-01-01T00:00:00+00:00"⟩] := by
  have h := mark_attendance_success "  Alice  " "2024-01-01T00:00:00+00:00" "id1" []
    (by decide)
  simpa using h

/-- A stored document of the `attendance` collection, as `list_attendance` reads
it.  `oid` models `str(d.get("_id"))`, the stringified storage identifier.
`name` and `timestamp` are the optional stored string fields; `none` stands both
for a missing field and a stored JSON null, exactly as `dict.get` conflates
them.  `created_at` models the optional stored creation datetime, represented
directly by its ISO-8601 rendering `d.get("created_at").isoformat()`, the only
use the handler makes of it (a datetime object itself is always truthy). -/
structure AttendanceDoc where
  oid : String
  name : Option String
  timestamp : Option String
  created_at : Option String
deriving DecidableEq, Repr

/-- A normalized element of the `GET /api/attendance` response body. -/
structure AttendanceItem where
  id : String
  name : Option String
  timestamp : Option String
deriving DecidableEq, Repr

/-- Python truthiness of an optional string: `None` and `""` are falsy, every
other string is truthy. -/
def pyTruthy : Option String → Bool
  | none => false
  | some s => !(s == "")

/-- The per-document normalization of `list_attendance` (src/main.py lines
48-52): `{"id": str(d.get("_id")), "name": d.get("name"), "timestamp":
d.get("timestamp") or (d.get("created_at") and d.get("created_at").isoformat())}`.
Python `x or y` yields `y` exactly when `x` is falsy, and
`d.get("created_at") and d.get("created_at").isoformat()` is `None` when
`created_at` is absent and its ISO-8601 rendering otherwise. -/
def normalizeAttendance (d : AttendanceDoc) : AttendanceItem :=
  { id := d.oid
    name := d.name
    timestamp := if pyTruthy d.timestamp then d.timestamp else d.created_at }

/-- Shallow embedding of `list_attendance` (src/main.py lines 42-55), the
handler of `GET /api/attendance`: normalize every stored document, then
`normalized.sort(key=lambda x: x.get("timestamp") or "", reverse=True)`.
CPython's `list.sort` is a stable sort; with `reverse=True` it is a stable
descending sort on the key, modelled by `List.mergeSort` with the reversed
comparison, which likewise keeps equal-key elements in their original order.
The key `x.get("timestamp") or ""` equals `x.timestamp.getD ""` because the
only falsy string is `""` itself. -/
def list_attendance (docs : List AttendanceDoc) : List AttendanceItem :=
  (docs.map normalizeAttendance).mergeSort
    (fun a b => decide (b.timestamp.getD "" ≤ a.timestamp.getD ""))

/-- Claim C5: `list_attendance` returns exactly the normalized documents (as a
permutation of their one-for-one normalization), arranged in descending
lexicographic order of the string key that reads a missing timestamp as the
empty string — so documents without a timestamp sort to the end. -/
theorem list_attendance_sorted_desc (docs : List AttendanceDoc) :
    (list_attendance docs).Perm (docs.map normalizeAttendance) ∧
    (list_attendance docs).Pairwise
      (fun a b => b.timestamp.getD "" ≤ a.timestamp.getD "") := by
  constructor
  · exact List.mergeSort_perm _ _
  · have h : ((docs.map normalizeAttendance).mergeSort
        (fun a b => decide (b.timestamp.getD "" ≤ a.timestamp.getD ""))).Pairwise
        (fun a b => decide (b.timestamp.getD "" ≤ a.timestamp.getD "") = true) :=
      List.sorted_mergeSort
        (fun a b c hab hbc => by
          simp only [decide_eq_true_eq] at hab hbc ⊢
          exact le_trans hbc hab)
        (fun a b => by
          rcases le_total (b.timestamp.getD "") (a.timestamp.getD "") with h | h <;>
            simp [h])
        (docs.map normalizeAttendance)
    exact h.imp fun hab => of_decide_eq_true hab

/-- Counterexample to claim C6 as stated: a document whose primary `timestamp`
field is present but equal to the empty string (falsy in Python) does not keep
it — the handler falls back to `created_at`.  Here the document carries
`timestamp = some ""` yet the normalized timestamp is the `created_at`
rendering, not `some ""`. -/
theorem normalizeAttendance_counterexample :
    (⟨"id1", some "n", some "", some "2024-01-01T00:00:00"⟩ :
        AttendanceDoc).timestamp = some "" ∧
    (normalizeAttendance ⟨"id1", some "n", some "", some "2024-01-01T00:00:00"⟩).timestamp =
      some "2024-01-01T00:00:00" ∧
    (some "2024-01-01T00:00:00" : Option String) ≠ some "" := by
  refine ⟨rfl, rfl, by decide⟩

/-- Claim C6 (amended): each document is normalized to `{id, name, timestamp}`
with `id` the stringified storage identifier and `name` passed through; the
returned timestamp equals the primary `timestamp` field whenever that field is
present and non-empty, and only when the primary field is absent or empty does
it fall back to the stored `created_at` rendered as ISO-8601 when present, else
`none`. -/
theorem normalizeAttendance_spec (d : AttendanceDoc) :
    (normalizeAttendance d).id = d.oid ∧
    (normalizeAttendance d).name = d.name ∧
    (∀ s, d.timestamp = some s → s ≠ "" →
      (normalizeAttendance d).timestamp = some s) ∧
    ((d.timestamp = none ∨ d.timestamp = some "") →
      (normalizeAttendance d).timestamp = d.created_at) := by
  refine ⟨rfl, rfl, ?_, ?_⟩
  · intro s hs hne
    simp [normalizeAttendance, pyTruthy, hs, hne]
  · rintro (h | h) <;> simp [normalizeAttendance, pyTruthy, h]

/-- Witness for C6 (amended): a present non-empty timestamp is kept, and an
absent timestamp falls back to the `created_at` rendering. -/
theorem normalizeAttendance_spec_witness :
    (normalizeAttendance ⟨"i", some "n", some "2024", some "2023"⟩).timestamp =
      some "2024" ∧
    (normalizeAttendance ⟨"i", some "n", none, some "2023"⟩).timestamp =
      some "2023" := by
  exact ⟨(normalizeAttendance_spec ⟨"i", some "n", some "2024", some "2023"⟩).2.2.1
      "2024" rfl (by decide),
    (normalizeAttendance_spec ⟨"i", some "n", none, some "2023"⟩).2.2.2 (Or.inl rfl)⟩

/-- Modelled from the spec: the `Umkm` record shape of the missing `schemas.py`
(spec section 3): required strings `name`, `contact`, `description` and an
optional `social`. -/
structure Umkm where
  name : String
  contact : String
  description : String
  social : Option String
deriving DecidableEq, Repr

/-- The JSON object returned by `POST /api/umkm`:
`{"id": inserted_id, **data.model_dump()}`. -/
structure UmkmResp where
  id : String
  name : String
  contact : String
  description : String
  social : Option String
deriving DecidableEq, Repr

/-- Shallow embedding of `register_umkm` (src/main.py lines 65-76), the handler
of `POST /api/umkm`.  The four payload fields come from the pydantic model
`UmkmIn` (`social : str | None = None`).  The guard is
`not name.strip() or not contact.strip() or not description.strip()`; the
`social` stored value is `payload.social.strip() if payload.social else None`,
where the Python truthiness test makes both `None` and the empty string fall to
`None`.  `freshId` and `store` are as in `mark_attendance`. -/
def register_umkm (name contact description : String) (social : Option String)
    (freshId : String) (store : List Umkm) :
    Except HTTPErr UmkmResp × List Umkm :=
  if pyStrip name = "" ∨ pyStrip contact = "" ∨ pyStrip description = "" then
    (Except.error ⟨400, "Name, contact, and description are required"⟩, store)
  else
    let data : Umkm :=
      { name := pyStrip name, contact := pyStrip contact,
        description := pyStrip description,
        social := match social with
          | some s => if s ≠ "" then some (pyStrip s) else none
          | none => none }
    let inserted := create_document freshId store data
    (Except.ok ⟨inserted.1, data.name, data.contact, data.description, data.social⟩,
      inserted.2)

/-- Claim C3: `register_umkm` fails with HTTP 400 and detail
"Name, contact, and description are required" if and only if at least one of
name, contact and description is empty after trimming, and in that case the
`umkm` collection is left unchanged. -/
theorem register_umkm_400_iff_blank (name contact description : String)
    (social : Option String) (freshId : String) (store : List Umkm) :
    ((register_umkm name contact description social freshId store).1 =
        Except.error ⟨400, "Name, contact, and description are required"⟩ ↔
      (pyStrip name = "" ∨ pyStrip contact = "" ∨ pyStrip description = "")) ∧
    ((pyStrip name = "" ∨ pyStrip contact = "" ∨ pyStrip description = "") →
      (register_umkm name contact description social freshId store).2 = store) := by
  constructor
  · constructor
    · intro h
      by_contra hne
      simp [register_umkm, hne] at h
    · intro h
      simp [register_umkm, h]
  · intro h
    simp [register_umkm, h]

/-- Witness for C3: an empty `contact` triggers the 400 error and nothing is
persisted. -/
theorem register_umkm_400_iff_blank_witness :
    ((register_umkm "Shop" "" "Sells things" none "id1" []).1 =
        Except.error ⟨400, "Name, contact, and description are required"⟩) ∧
    (register_umkm "Shop" "" "Sells things" none "id1" []).2 = [] := by
  exact ⟨((register_umkm_400_iff_blank "Shop" "" "Sells things" none "id1" []).1).mpr
      (by decide),
    (register_umkm_400_iff_blank "Shop" "" "Sells things" none "id1" []).2 (by decide)⟩

/-- Counterexample to claim C4 as stated: with `social` present and non-null but
equal to the empty string (`{"social": ""}`), the claim requires the stored
social to be its trimmed value `some (pyStrip "") = some ""`, yet the handler
persists and returns `none` (Python `payload.social` is falsy for `""`). -/
theorem register_umkm_social_empty_counterexample :
    (register_umkm "a" "b" "c" (some "") "id1" []).2 = [⟨"a", "b", "c", none⟩] ∧
    (register_umkm "a" "b" "c" (some "") "id1" []).1 =
      Except.ok ⟨"id1", "a", "b", "c", none⟩ ∧
    some (pyStrip "") ≠ (none : Option String) := by
  decide

/-- Claim C4 (amended): when name, contact and description are non-empty after
trimming, `register_umkm` appends exactly one record holding the three trimmed
strings and a social value that is the trimmed social whenever social is
present, non-null and non-empty, and `none` when social is omitted or the empty
string; the response carries the fresh identifier and exactly the stored
values. -/
theorem register_umkm_success (name contact description : String)
    (social : Option String) (freshId : String) (store : List Umkm)
    (hn : pyStrip name ≠ "") (hc : pyStrip contact ≠ "")
    (hd : pyStrip description ≠ "") :
    ∃ soc : Option String,
      (register_umkm name contact description social freshId store).1 =
        Except.ok ⟨freshId, pyStrip name, pyStrip contact, pyStrip description, soc⟩ ∧
      (register_umkm name contact description social freshId store).2 =
        store ++ [⟨pyStrip name, pyStrip contact, pyStrip description, soc⟩] ∧
      (∀ s, social = some s → s ≠ "" → soc = some (pyStrip s)) ∧
      ((social = none ∨ social = some "") → soc = none) := by
  have hcond : ¬(pyStrip name = "" ∨ pyStrip contact = "" ∨ pyStrip description = "") := by
    push_neg
    exact ⟨hn, hc, hd⟩
  refine ⟨(match social with
      | some s => if s ≠ "" then some (pyStrip s) else none
      | none => none), ?_, ?_, ?_, ?_⟩
  · simp only [register_umkm, if_neg hcond, create_document]
  · simp only [register_umkm, if_neg hcond, create_document]
  · intro s hs hne
    subst hs
    simp [hne]
  · rintro (h | h) <;> subst h <;> rfl

/-- Witness for C4: registering with name `" N "`, contact `"C"`, description
`"D"` and social `" @n "` stores the trimmed fields and social `"@n"`. -/
theorem register_umkm_success_witness :
    ∃ soc : Option String,
      (register_umkm " N " "C" "D" (some " @n ") "id1" []).1 =
        Except.ok ⟨"id1", pyStrip " N ", pyStrip "C", pyStrip "D", soc⟩ ∧
      (register_umkm " N " "C" "D" (some " @n ") "id1" []).2 =
        [⟨pyStrip " N ", pyStrip "C", pyStrip "D", soc⟩] ∧
      (∀ s, (some " @n " : Option String) = some s → s ≠ "" → soc = some (pyStrip s)) ∧
      (((some " @n " : Option String) = none ∨ (some " @n " : Option String) = some "") →
        soc = none) := by
  simpa using register_umkm_success " N " "C" "D" (some " @n ") "id1" []
    (by decide) (by decide) (by decide)

/-- Claim C10: a whitespace-only `social` passes validation (which looks only at
name, contact and description) and is persisted and returned as the empty
string, whereas a `social` that is the empty string or omitted is persisted and
returned as `none`. -/
theorem register_umkm_social_cases (name contact description s : String)
    (freshId : String) (store : List Umkm)
    (hn : pyStrip name ≠ "") (hc : pyStrip contact ≠ "")
    (hd : pyStrip description ≠ "") (hs : s ≠ "") (hws : pyStrip s = "") :
    (register_umkm name contact description (some s) freshId store).1 =
      Except.ok ⟨freshId, pyStrip name, pyStrip contact, pyStrip description, some ""⟩ ∧
    (register_umkm name contact description (some s) freshId store).2 =
      store ++ [⟨pyStrip name, pyStrip contact, pyStrip description, some ""⟩] ∧
    (register_umkm name contact description (some "") freshId store).1 =
      Except.ok ⟨freshId, pyStrip name, pyStrip contact, pyStrip description, none⟩ ∧
    (register_umkm name contact description (some "") freshId store).2 =
      store ++ [⟨pyStrip name, pyStrip contact, pyStrip description, none⟩] ∧
    (register_umkm name contact description none freshId store).1 =
      Except.ok ⟨freshId, pyStrip name, pyStrip contact, pyStrip description, none⟩ ∧
    (register_umkm name contact description none freshId store).2 =
      store ++ [⟨pyStrip name, pyStrip contact, pyStrip description, none⟩] := by
  have hcond : ¬(pyStrip name = "" ∨ pyStrip contact = "" ∨ pyStrip description = "") := by
    push_neg
    exact ⟨hn, hc, hd⟩
  refine ⟨?_, ?_, ?_, ?_, ?_, ?_⟩ <;>
    simp [register_umkm, if_neg hcond, create_document, hs, hws]

/-- Witness for C10: social `"   "` (whitespace-only) is stored as `""` while
social `""` and omitted social are stored as `none`, for a concrete valid
registration. -/
theorem register_umkm_social_cases_witness :
    (register_umkm "N" "C" "D" (some "   ") "id1" []).1 =
      Except.ok ⟨"id1", pyStrip "N", pyStrip "C", pyStrip "D", some ""⟩ ∧
    (register_umkm "N" "C" "D" (some "   ") "id1" []).2 =
      [⟨pyStrip "N", pyStrip "C", pyStrip "D", some ""⟩] ∧
    (register_umkm "N" "C" "D" (some "") "id1" []).1 =
      Except.ok ⟨"id1", pyStrip "N", pyStrip "C", pyStrip "D", none⟩ ∧
    (register_umkm "N" "C" "D" (some "") "id1" []).2 =
      [⟨pyStrip "N", pyStrip "C", pyStrip "D", none⟩] ∧
    (register_umkm "N" "C" "D" none "id1" []).1 =
      Except.ok ⟨"id1", pyStrip "N", pyStrip "C", pyStrip "D", none⟩ ∧
    (register_umkm "N" "C" "D" none "id1" []).2 =
      [⟨pyStrip "N", pyStrip "C", pyStrip "D", none⟩] := by
  simpa using register_umkm_social_cases "N" "C" "D" "   " "id1" []
    (by decide) (by decide) (by decide) (by decide) (by decide)

/-- A stored document of the `umkm` collection in the shape the data model
gives it (each field a string or absent/null), as `list_umkm` reads it.
`oid` models `str(d.get("_id"))`; `none` stands both for a missing field and a
stored JSON null, as `dict.get` conflates them. -/
structure UmkmDoc where
  oid : String
  name : Option String
  contact : Option String
  description : Option String
  social : Option String
deriving DecidableEq, Repr

/-- An element of the `GET /api/umkm` response body. -/
structure UmkmItem where
  id : String
  name : Option String
  contact : Option String
  description : Option String
  social : Option String
deriving DecidableEq, Repr

/-- The per-document projection of `list_umkm` (src/main.py lines 82-89):
`{"id": str(d.get("_id")), "name": d.get("name"), "contact": d.get("contact"),
"description": d.get("description"), "social": d.get("social")}`. -/
def projectUmkm (d : UmkmDoc) : UmkmItem :=
  ⟨d.oid, d.name, d.contact, d.description, d.social⟩

/-- Python `str.lower()`, modelled by lowercasing each character with
`Char.toLower` (exact on ASCII; full Unicode case folding is not modelled and
no claim depends on it). -/
def pyLower (s : String) : String :=
  ⟨s.data.map Char.toLower⟩

/-- The sort key of `list_umkm`: `(x.get("name") or "").lower()`.  The value
`x.get("name") or ""` equals `x.name.getD ""` because the only falsy string is
`""` itself. -/
def umkmKey (x : UmkmItem) : String :=
  pyLower (x.name.getD "")

/-- Shallow embedding of `list_umkm` (src/main.py lines 78-92), the handler of
`GET /api/umkm`: project every stored document, then
`out.sort(key=lambda x: (x.get("name") or "").lower())` — CPython's stable
ascending sort on the case-folded name, modelled by `List.mergeSort`. -/
def list_umkm (docs : List UmkmDoc) : List UmkmItem :=
  (docs.map projectUmkm).mergeSort (fun a b => decide (umkmKey a ≤ umkmKey b))

/-- Claim C7: `list_umkm` returns exactly the projections of the stored
documents (a permutation of their one-for-one projection, id stringified),
arranged in ascending lexicographic order of the case-folded name key
`umkmKey`, which compares a missing name as the empty string. -/
theorem list_umkm_sorted_asc (docs : List UmkmDoc) :
    (list_umkm docs).Perm (docs.map projectUmkm) ∧
    (list_umkm docs).Pairwise (fun a b => umkmKey a ≤ umkmKey b) := by
  constructor
  · exact List.mergeSort_perm _ _
  · have h : ((docs.map projectUmkm).mergeSort
        (fun a b => decide (umkmKey a ≤ umkmKey b))).Pairwise
        (fun a b => decide (umkmKey a ≤ umkmKey b) = true) :=
      List.sorted_mergeSort
        (fun a b c hab hbc => by
          simp only [decide_eq_true_eq] at hab hbc ⊢
          exact le_trans hab hbc)
        (fun a b => by
          rcases le_total (umkmKey a) (umkmKey b) with h | h <;> simp [h])
        (docs.map projectUmkm)
    exact h.imp fun hab => of_decide_eq_true hab

/-- A loosely-typed stored field value: absent/null, a string, or a non-string
value.  One non-string representative (`vint`, an integer) is enough to exhibit
how the handler treats values that are neither strings nor null. -/
inductive PyVal where
  | vnone : PyVal
  | vstr : String → PyVal
  | vint : Int → PyVal
deriving DecidableEq, Repr

/-- Python truthiness of a loosely-typed value: `None`, `""` and `0` are
falsy. -/
def PyVal.truthy : PyVal → Bool
  | .vnone => false
  | .vstr s => !(s == "")
  | .vint n => !(n == 0)

/-- A stored `umkm` document of arbitrary shape: every field may be absent,
a string, or a non-string value. -/
structure UmkmDocAny where
  oid : String
  name : PyVal
  contact : PyVal
  description : PyVal
  social : PyVal
deriving DecidableEq, Repr

/-- An element of the `GET /api/umkm` response computed from a loosely-typed
document. -/
structure UmkmItemAny where
  id : String
  name : PyVal
  contact : PyVal
  description : PyVal
  social : PyVal
deriving DecidableEq, Repr

/-- The per-document projection of `list_umkm` on a loosely-typed document:
`dict.get` returns whatever is stored (or `None`), so every field is passed
through unchanged. -/
def projectUmkmAny (d : UmkmDocAny) : UmkmItemAny :=
  ⟨d.oid, d.name, d.contact, d.description, d.social⟩

/-- The sort key `(x.get("name") or "").lower()` on a loosely-typed document:
Python first replaces a falsy name (`None`, `""`, `0`) by `""`, then calls
`.lower()`, which exists on `str` but raises `AttributeError` on a non-string
such as an `int`. -/
def umkmKeyAny (x : UmkmItemAny) : Except String String :=
  match (if x.name.truthy then x.name else .vstr "") with
  | .vstr s => .ok (pyLower s)
  | _ => .error "AttributeError"

/-- The value of the sort key once every key computation has succeeded (the
`error` branch is never reached in that case). -/
def umkmKeyOk (x : UmkmItemAny) : String :=
  match umkmKeyAny x with
  | .ok s => s
  | .error _ => ""

/-- Shallow embedding of `list_umkm` over loosely-typed documents: CPython's
`list.sort(key=...)` computes the key of every element in list order and
propagates the first exception; only when every key is computed does it sort
(stably, ascending on the key). -/
def list_umkm_any (docs : List UmkmDocAny) : Except String (List UmkmItemAny) :=
  let out := docs.map projectUmkmAny
  match out.mapM umkmKeyAny with
  | .error e => .error e
  | .ok _ => .ok (out.mergeSort (fun a b => decide (umkmKeyOk a ≤ umkmKeyOk b)))

/-- Helper: `mapM` over `Except` succeeds when every element succeeds. -/
theorem mapM_ok_of_forall {α β : Type} (f : α → Except String β) :
    ∀ l : List α, (∀ x ∈ l, ∃ y, f x = Except.ok y) →
      ∃ ys, l.mapM f = Except.ok ys
  | [], _ => ⟨[], rfl⟩
  | a :: l, h => by
    obtain ⟨y, hy⟩ := h a (List.mem_cons_self a l)
    obtain ⟨ys, hys⟩ :=
      mapM_ok_of_forall f l (fun x hx => h x (List.mem_cons_of_mem a hx))
    refine ⟨y :: ys, ?_⟩
    simp only [List.mapM_cons, hy, hys]
    rfl

/-- Counterexample to claim C9 as stated: a stored document whose `name` is a
truthy non-string (here the integer 5) makes the sort-key computation call
`.lower()` on an `int`, so the handler raises instead of returning. -/
theorem list_umkm_any_counterexample :
    list_umkm_any [⟨"id1", PyVal.vint 5, PyVal.vnone, PyVal.vnone, PyVal.vnone⟩] =
      Except.error "AttributeError" := by
  rfl

/-- Claim C9 (amended): `list_umkm` returns without raising for every list of
stored documents whose `name` fields carry no truthy non-string value (absent,
null, any string, or a falsy value are all fine) — the other fields may have
any shape and are passed through unchanged, missing ones as null; the result is
the projections of the documents.  A document whose `name` is a truthy
non-string raises `AttributeError` (see the counterexample). -/
theorem list_umkm_any_total (docs : List UmkmDocAny)
    (h : ∀ d ∈ docs, ∀ n : Int, d.name = PyVal.vint n → n = 0) :
    ∃ out, list_umkm_any docs = Except.ok out ∧
      out.Perm (docs.map projectUmkmAny) := by
  have hall : ∀ x ∈ docs.map projectUmkmAny, ∃ y, umkmKeyAny x = Except.ok y := by
    intro x hx
    obtain ⟨d, hd, rfl⟩ := List.mem_map.mp hx
    match hname : d.name with
    | .vnone => exact ⟨pyLower "", by simp [umkmKeyAny, projectUmkmAny, hname, PyVal.truthy]⟩
    | .vstr s =>
        by_cases hs : s = ""
        · exact ⟨pyLower "", by simp [umkmKeyAny, projectUmkmAny, hname, PyVal.truthy, hs]⟩
        · exact ⟨pyLower s, by simp [umkmKeyAny, projectUmkmAny, hname, PyVal.truthy, hs]⟩
    | .vint n =>
        have hn := h d hd n hname
        subst hn
        exact ⟨pyLower "", by simp [umkmKeyAny, projectUmkmAny, hname, PyVal.truthy]⟩
  obtain ⟨ks, hks⟩ := mapM_ok_of_forall umkmKeyAny (docs.map projectUmkmAny) hall
  refine ⟨(docs.map projectUmkmAny).mergeSort
      (fun a b => decide (umkmKeyOk a ≤ umkmKeyOk b)), ?_, List.mergeSort_perm _ _⟩
  simp only [list_umkm_any]
  rw [hks]

/-- Witness for C9 (amended): a document with an absent name and an integer
`contact` is listed without raising. -/
theorem list_umkm_any_total_witness :
    ∃ out, list_umkm_any
        [⟨"a", PyVal.vnone, PyVal.vint 7, PyVal.vnone, PyVal.vnone⟩] =
      Except.ok out ∧
      out.Perm ([⟨"a", PyVal.vnone, PyVal.vint 7, PyVal.vnone, PyVal.vnone⟩].map
        projectUmkmAny) := by
  refine list_umkm_any_total _ ?_
  intro d hd n hn
  rw [List.mem_singleton] at hd
  subst hd
  simp at hn

/-- The JSON object returned by `GET /test`.  `database_url` and
`database_name` start as Python `None` and are overwritten with strings before
returning, hence `Option String`. -/
structure TestResponse where
  backend : String
  database : String
  database_url : Option String
  database_name : Option String
  connection_status : String
  collections : List String
deriving DecidableEq, Repr

/-- A Python exception, as far as `test_database`'s handlers distinguish them:
an `ImportError`, or any other `Exception` carrying its `str(e)` message. -/
inductive PyErr where
  | importError : PyErr
  | otherError : String → PyErr
deriving DecidableEq, Repr

/-- The storage connection handle `database.db` as `test_database` probes it
when the import succeeds and the handle is not `None`: its optional `name`
attribute (`_db.name if hasattr(_db, 'name')`), and the outcome of calling
`list_collection_names()` — a list of names, or the message of any raised
exception. -/
structure DbHandle where
  name : Option String
  list_collection_names : Except String (List String)
deriving DecidableEq, Repr

/-- Shallow embedding of `test_database` (src/main.py lines 94-132), the
handler of `GET /test`.  `imp` is the outcome of `from database import db`: a
raised exception, or the handle (`none` when `db is None`).  `urlSet` and
`nameSet` say whether the environment variables `DATABASE_URL` and
`DATABASE_NAME` are set.  A raised exception is the `Except.error` branch of
the result; as in the source, every failure of the probed operations is caught
by a `try`/`except` and rendered into the response body, and the final
unconditional environment-variable report overwrites `database_url` and
`database_name`. -/
def test_database (imp : Except PyErr (Option DbHandle))
    (urlSet nameSet : Bool) : Except PyErr TestResponse :=
  let response : TestResponse :=
    { backend := "✅ Running"
      database := "❌ Not Available"
      database_url := none
      database_name := none
      connection_status := "Not Connected"
      collections := [] }
  let response : TestResponse :=
    match imp with
    | .ok (some db) =>
        let r : TestResponse :=
          { response with
            database := "✅ Available"
            database_url := some "✅ Configured"
            database_name := some (db.name.getD "✅ Connected")
            connection_status := "Connected" }
        match db.list_collection_names with
        | .ok collections =>
            { r with
              collections := collections.take 10
              database := "✅ Connected & Working" }
        | .error e =>
            { r with database := "⚠️  Connected but Error: " ++ e.take 50 }
    | .ok none =>
        { response with database := "⚠️  Available but not initialized" }
    | .error .importError =>
        { response with
          database := "❌ Database module not found (run enable-database first)" }
    | .error (.otherError e) =>
        { response with database := "❌ Error: " ++ e.take 50 }
  .ok { response with
        database_url := some (if urlSet then "✅ Set" else "❌ Not Set")
        database_name := some (if nameSet then "✅ Set" else "❌ Not Set") }

/-- Claim C8: for every storage state — import raising `ImportError` or any
other exception, module loaded but handle `None`, or a connected handle with
any outcome of the collection listing — and any environment, `test_database`
returns normally (an HTTP 200 body, never a raised exception), always reporting
the backend as running. -/
theorem test_database_never_raises (imp : Except PyErr (Option DbHandle))
    (urlSet nameSet : Bool) :
    ∃ r : TestResponse,
      test_database imp urlSet nameSet = Except.ok r ∧
      r.backend = "✅ Running" := by
  refine ⟨_, rfl, ?_⟩
  cases imp with
  | error e => cases e <;> rfl
  | ok h =>
    cases h with
    | none => rfl
    | some db =>
      rcases db with ⟨nm, lcn⟩
      cases lcn <;> rfl

end MainPy
